import Mathlib

/-!
Shallow embedding of `src/static/js/dashboard.js` (client-side dashboard
controller of the GDM repository), together with theorems settling the
spec claims about it.

Modelling conventions:
* JS numbers carried by chart data are modelled as rationals (`ℚ`);
  displayed KPI counter values are modelled as natural numbers rendered
  to strings.
* A possibly-`undefined`/`null` JS value is an `Option`; JS member access
  on a possibly-undefined base is `jsMember`, which throws `TypeError`
  (modelled in `Except`) when the base is absent.
* The JS truthiness default `x || d` on numbers is `jsOrQ` (0 is falsy),
  and on arrays is `jsOrList` (every array is truthy).
* DOM lookups (`getElementById`, `querySelector`) are `Option`-valued
  inputs to the embedded functions.
-/

/-- JS exception kinds relevant to the embedded code. -/
inductive JsError where
  | typeError
  | networkError
  | parseError
  deriving DecidableEq, Repr

/-- JS member access `o.f` where the base `o` may be `undefined`/`null`:
throws `TypeError` when the base is absent (dashboard.js lines 36-40, 101-102
access `data.low_risk` etc. without a null check on `data`). -/
def jsMember (o : Option α) (f : α → β) : Except JsError β :=
  match o with
  | none => Except.error JsError.typeError
  | some v => Except.ok (f v)

/-- The JS default idiom `v || d` on a numeric field: a missing field and a
present value `0` are both falsy and give the default. -/
def jsOrQ (v : Option ℚ) (d : ℚ) : ℚ :=
  match v with
  | none => d
  | some x => if x = 0 then d else x

/-- The JS default idiom `v || d` on an array field: a missing field gives
the default; every present array (even an empty one) is truthy. -/
def jsOrList (v : Option (List α)) (d : List α) : List α :=
  match v with
  | none => d
  | some l => l

/-- `chartData.riskDistribution`: the three keys may each be absent. -/
structure RiskDistribution where
  low_risk : Option ℚ
  moderate_risk : Option ℚ
  high_risk : Option ℚ
  deriving DecidableEq, Repr

/-- `chartData.assessmentTrends`: `labels` and `counts` may each be absent. -/
structure TrendsData where
  labels : Option (List String)
  counts : Option (List ℚ)
  deriving DecidableEq, Repr

/-- The observable content of the doughnut chart built at dashboard.js
lines 31-92: its labels and its dataset values. -/
structure DoughnutChart where
  labels : List String
  data : List ℚ
  deriving DecidableEq, Repr

/-- The observable content of the line chart built at dashboard.js
lines 104-188: its labels and its dataset values. -/
structure LineChart where
  labels : List String
  data : List ℚ
  deriving DecidableEq, Repr

/-- The dataset of the risk-distribution doughnut chart
(dashboard.js lines 36-40): `[data.low_risk || 0, data.moderate_risk || 0,
data.high_risk || 0]`. -/
def riskDataset (d : RiskDistribution) : List ℚ :=
  [jsOrQ d.low_risk 0, jsOrQ d.moderate_risk 0, jsOrQ d.high_risk 0]

/-- `initializeRiskDistributionChart` (dashboard.js lines 27-93): returns
without a chart when the container is absent (lines 28-29); otherwise reads
the three fields of `data` (throwing `TypeError` when `data` itself is
absent) and builds the doughnut chart. The container lookup result is the
`ctx` argument. -/
def initializeRiskDistributionChart (ctx : Option Unit) (data : Option RiskDistribution) :
    Except JsError (Option DoughnutChart) :=
  match ctx with
  | none => Except.ok none
  | some _ => do
    let lo ← jsMember data (fun d => jsOrQ d.low_risk 0)
    let mo ← jsMember data (fun d => jsOrQ d.moderate_risk 0)
    let hi ← jsMember data (fun d => jsOrQ d.high_risk 0)
    Except.ok (some { labels := ["Low Risk", "Moderate Risk", "High Risk"],
                      data := [lo, mo, hi] })

/-- Default labels of the trends chart (dashboard.js line 101). -/
def defaultTrendLabels : List String := ["Mon", "Tue", "Wed", "Thu", "Fri", "Sat", "Sun"]

/-- Default counts of the trends chart (dashboard.js line 102). -/
def defaultTrendCounts : List ℚ := [0, 0, 0, 0, 0, 0, 0]

/-- `initializeAssessmentTrendsChart` (dashboard.js lines 96-189): returns
without a chart when the container is absent (lines 97-98); otherwise reads
`data.labels` and `data.counts` (throwing `TypeError` when `data` itself is
absent), defaulting each missing field, and builds the line chart. -/
def initializeAssessmentTrendsChart (ctx : Option Unit) (data : Option TrendsData) :
    Except JsError (Option LineChart) :=
  match ctx with
  | none => Except.ok none
  | some _ => do
    let labels ← jsMember data (fun d => jsOrList d.labels defaultTrendLabels)
    let counts ← jsMember data (fun d => jsOrList d.counts defaultTrendCounts)
    Except.ok (some { labels := labels, data := counts })

/-- `Number.prototype.toFixed(1)` on an exact rational: round to the nearest
tenth (ties away from zero for nonnegative inputs, as `round` does). -/
def fix1 (x : ℚ) : ℚ := (round (x * 10) : ℤ) / 10

/-- The numeric value of the percentage produced by the doughnut tooltip
label callback (dashboard.js lines 69-75): the dataset total is
`data.reduce((a, b) => a + b, 0)` and the percentage is
`total > 0 ? ((value / total) * 100).toFixed(1) : 0`. -/
def tooltipPercentage (value : ℚ) (dataset : List ℚ) : ℚ :=
  let total := dataset.foldl (fun a b => a + b) 0
  if total > 0 then fix1 (value / total * 100) else 0

/-- The KPI navigation switch of `addKPICardInteractions`
(dashboard.js lines 263-276): card index to `window.location.href` target;
indices outside 0-3 navigate nowhere. -/
def kpiNavigationTarget (index : ℕ) : Option String :=
  match index with
  | 0 => some "/patients"
  | 1 => some "/patients"
  | 2 => some "/patients?filter=high_risk"
  | 3 => some "/patients?filter=recent"
  | _ => none

/-- The displayed text of the four KPI counters: each field is the text
content of the corresponding `.kpi-card h3` element, `none` when the element
is absent from the page (dashboard.js lines 230-235). -/
structure KPIDom where
  totalPatients : Option String
  totalAssessments : Option String
  highRiskCount : Option String
  assessmentsThisWeek : Option String
  deriving DecidableEq, Repr

/-- A fetched stats snapshot (`data.stats` of `/api/dashboard-data`): each
key may be absent; values are the numeric counters. -/
structure StatsSnapshot where
  totalPatients : Option ℕ
  totalAssessments : Option ℕ
  highRiskCount : Option ℕ
  assessmentsThisWeek : Option ℕ
  deriving DecidableEq, Repr

/-- One iteration of the `updateKPICards` loop body (dashboard.js
lines 237-247): the element text is replaced by the stats value only when
the element exists and `stats[key]` is truthy (present and nonzero);
otherwise the displayed text is left as it was. -/
def updateCell (el : Option String) (v : Option ℕ) : Option String :=
  match el, v with
  | some _, some n => if n = 0 then el else some (toString n)
  | _, _ => el

/-- `updateKPICards` (dashboard.js lines 229-248) applied to the four
counters. -/
def updateKPICards (dom : KPIDom) (stats : StatsSnapshot) : KPIDom :=
  { totalPatients := updateCell dom.totalPatients stats.totalPatients,
    totalAssessments := updateCell dom.totalAssessments stats.totalAssessments,
    highRiskCount := updateCell dom.highRiskCount stats.highRiskCount,
    assessmentsThisWeek := updateCell dom.assessmentsThisWeek stats.assessmentsThisWeek }

/-- Outcome of the `fetch` / `response.json()` pair inside
`refreshDashboardData`: the fetch may reject, the response may be non-OK,
the body may fail to parse, or a parsed object is obtained whose `stats`
member may itself be absent. -/
inductive FetchOutcome where
  | networkError
  | httpNotOk
  | parseError
  | success (stats : Option StatsSnapshot)
  deriving DecidableEq, Repr

/-- The `try` block of `refreshDashboardData` (dashboard.js lines 208-222):
a rejected fetch or a failed `response.json()` throws; a non-OK response
skips the update; a parsed body without a `stats` object makes
`updateKPICards` throw `TypeError` on `stats[key]`; otherwise the KPI DOM is
updated. -/
def refreshBody (dom : KPIDom) (o : FetchOutcome) : Except JsError KPIDom :=
  match o with
  | FetchOutcome.networkError => Except.error JsError.networkError
  | FetchOutcome.httpNotOk => Except.ok dom
  | FetchOutcome.parseError => Except.error JsError.parseError
  | FetchOutcome.success none => Except.error JsError.typeError
  | FetchOutcome.success (some s) => Except.ok (updateKPICards dom s)

/-- `refreshDashboardData` (dashboard.js lines 207-226): the surrounding
`try`/`catch` swallows every exception of the body (logging it), leaving
the DOM as it was; the function itself never throws. -/
def refreshDashboardData (dom : KPIDom) (o : FetchOutcome) : Except JsError KPIDom :=
  match refreshBody dom o with
  | Except.ok d => Except.ok d
  | Except.error _ => Except.ok dom

/-- `String.prototype.startsWith`-style prefix test used to model
`String.prototype.includes`. -/
def jsStartsWith : List Char → List Char → Bool
  | _, [] => true
  | [], _ :: _ => false
  | c :: s, d :: sub => c = d && jsStartsWith s sub

/-- `String.prototype.includes`: scans every suffix of the receiver for an
occurrence of the search string at its start. -/
def jsIncludes : List Char → List Char → Bool
  | [], sub => sub.isEmpty
  | c :: s, sub => jsStartsWith (c :: s) sub || jsIncludes s sub

/-- `Character.toLowerCase` applied pointwise, modelling
`String.prototype.toLowerCase`. -/
def jsToLower (s : List Char) : List Char := s.map Char.toLower

/-- The per-item body of the search handler (dashboard.js lines 294-301):
`item.style.display` is set to the empty string (restored, visible) when the
lower-cased text contains the search term, and to `"none"` (hidden)
otherwise. The search term passed in is already lower-cased. -/
def itemDisplay (searchTerm : List Char) (itemText : List Char) : String :=
  if jsIncludes (jsToLower itemText) searchTerm then "" else "none"

/-- The debounced search handler of `addSearchFunctionality` (dashboard.js
lines 289-302): lower-cases the query once, then pairs every matched item
with the display value its style receives. -/
def searchFilter (query : List Char) (items : List (List Char)) :
    List (List Char × String) :=
  let searchTerm := jsToLower query
  items.map (fun item => (item, itemDisplay searchTerm item))

/-- Operational model of `debounce` (dashboard.js lines 315-325) driven by a
time-stamped call sequence. The state is the pending timer (fire time and
captured arguments). Each call first lets a pending timer fire if its time
has come (the event loop runs due timers before later input events), then
`clearTimeout` cancels what remains pending and `setTimeout` schedules the
wrapped function `wait` after the call. The result is the list of
executions of the wrapped function, as (fire time, arguments) pairs. -/
def debounceRun (wait : ℕ) : List (ℕ × α) → Option (ℕ × α) → List (ℕ × α)
  | [], none => []
  | [], some p => [p]
  | (t, a) :: rest, none => debounceRun wait rest (some (t + wait, a))
  | (t, a) :: rest, some (ft, pa) =>
      if ft ≤ t then (ft, pa) :: debounceRun wait rest (some (t + wait, a))
      else debounceRun wait rest (some (t + wait, a))

lemma jsOrQ_some (v : ℚ) : jsOrQ (some v) 0 = v := by
  by_cases h : v = 0 <;> simp [jsOrQ, h]

/-- C8: the KPI card click handlers map each fixed card index to a fixed
navigation target: indices 0 and 1 go to /patients, index 2 to
/patients?filter=high_risk, index 3 to /patients?filter=recent. -/
theorem kpi_card_navigation_targets :
    kpiNavigationTarget 0 = some "/patients" ∧
    kpiNavigationTarget 1 = some "/patients" ∧
    kpiNavigationTarget 2 = some "/patients?filter=high_risk" ∧
    kpiNavigationTarget 3 = some "/patients?filter=recent" :=
  ⟨rfl, rfl, rfl, rfl⟩

/-- C9: when the named container element is absent, each chart renderer
returns without constructing a chart and without raising an error,
whatever the data argument is (even an absent one). -/
theorem chart_renderers_noop_without_container (rd : Option RiskDistribution)
    (td : Option TrendsData) :
    initializeRiskDistributionChart none rd = Except.ok none ∧
    initializeAssessmentTrendsChart none td = Except.ok none :=
  ⟨rfl, rfl⟩

/-- C10: with the container present, an absent (undefined/null) data
argument makes either renderer throw TypeError on the first member access,
while a present data object, however many keys it is missing, is rendered
without error. -/
theorem chart_renderers_typeerror_on_absent_data :
    initializeRiskDistributionChart (some ()) none = Except.error JsError.typeError ∧
    initializeAssessmentTrendsChart (some ()) none = Except.error JsError.typeError ∧
    (∀ d : RiskDistribution, initializeRiskDistributionChart (some ()) (some d) =
      Except.ok (some { labels := ["Low Risk", "Moderate Risk", "High Risk"],
                        data := riskDataset d })) ∧
    (∀ d : TrendsData, initializeAssessmentTrendsChart (some ()) (some d) =
      Except.ok (some { labels := jsOrList d.labels defaultTrendLabels,
                        data := jsOrList d.counts defaultTrendCounts })) :=
  ⟨rfl, rfl, fun _ => rfl, fun _ => rfl⟩

/-- C5: with the container present, the doughnut dataset uses 0 for each
missing riskDistribution key and the supplied value for each present key
(the JS `|| 0` idiom coincides with `Option.getD 0` on numbers), and the
trends chart substitutes the default labels and counts exactly when the
corresponding field is missing. -/
theorem chart_data_defaulting (a b c : Option ℚ) (ls : Option (List String))
    (cs : Option (List ℚ)) :
    initializeRiskDistributionChart (some ()) (some ⟨a, b, c⟩) =
      Except.ok (some { labels := ["Low Risk", "Moderate Risk", "High Risk"],
                        data := [a.getD 0, b.getD 0, c.getD 0] }) ∧
    initializeAssessmentTrendsChart (some ()) (some ⟨ls, cs⟩) =
      Except.ok (some { labels := ls.getD defaultTrendLabels,
                        data := cs.getD defaultTrendCounts }) := by
  constructor
  · cases a <;> cases b <;> cases c <;>
      simp [initializeRiskDistributionChart, jsMember, jsOrQ_some, jsOrQ,
        Bind.bind, Except.bind] <;>
      intros <;> simp_all
  · cases ls <;> cases cs <;>
      simp [initializeAssessmentTrendsChart, jsMember, jsOrList,
        Bind.bind, Except.bind]

/-- C3: every failing refresh attempt (network error, non-OK HTTP status,
or JSON parse error) leaves the displayed KPI counters exactly as they
were, and refreshDashboardData never propagates an exception for any
outcome whatsoever. -/
theorem refresh_failure_preserves_dom (dom : KPIDom) (o : FetchOutcome)
    (h : o = FetchOutcome.networkError ∨ o = FetchOutcome.httpNotOk ∨
         o = FetchOutcome.parseError) :
    refreshDashboardData dom o = Except.ok dom ∧
    ∀ oo : FetchOutcome, ∃ d, refreshDashboardData dom oo = Except.ok d := by
  constructor
  · rcases h with h | h | h <;> subst h <;> rfl
  · intro oo
    cases oo with
    | success s =>
        cases s with
        | none => exact ⟨dom, rfl⟩
        | some st => exact ⟨updateKPICards dom st, rfl⟩
    | networkError => exact ⟨dom, rfl⟩
    | httpNotOk => exact ⟨dom, rfl⟩
    | parseError => exact ⟨dom, rfl⟩

theorem refresh_failure_preserves_dom_witness :
    refreshDashboardData ⟨some "1", some "2", some "3", some "4"⟩
        FetchOutcome.networkError =
      Except.ok ⟨some "1", some "2", some "3", some "4"⟩ :=
  (refresh_failure_preserves_dom ⟨some "1", some "2", some "3", some "4"⟩
    FetchOutcome.networkError (Or.inl rfl)).1

/-- C2 counterexample: a successful refresh whose parsed snapshot carries
the value 0 for every counter leaves every displayed value unchanged
(here "5"), instead of updating it to the fetched value 0: the update is
guarded by JS truthiness of `stats[key]`. -/
theorem refresh_updates_counterexample :
    refreshDashboardData ⟨some "5", some "6", some "7", some "8"⟩
        (FetchOutcome.success (some ⟨some 0, some 0, some 0, some 0⟩)) =
      Except.ok ⟨some "5", some "6", some "7", some "8"⟩ ∧
    (some "5" : Option String) ≠ some (toString (0 : ℕ)) := by
  constructor
  · rfl
  · decide

/-- C2 amended: a successful refresh updates each displayed KPI counter
whose fetched value is truthy (present and nonzero) to that value; a
counter whose fetched value is 0 or whose key is missing keeps its prior
displayed text. -/
theorem refresh_success_updates (dom : KPIDom) (s : StatsSnapshot) :
    refreshDashboardData dom (FetchOutcome.success (some s)) =
      Except.ok (updateKPICards dom s) ∧
    (∀ t : String, ∀ n : ℕ, n ≠ 0 → updateCell (some t) (some n) = some (toString n)) ∧
    (∀ t : String, updateCell (some t) (some 0) = some t) ∧
    (∀ t : String, updateCell (some t) none = some t) := by
  refine ⟨rfl, ?_, ?_, ?_⟩
  · intro t n hn
    simp [updateCell, hn]
  · intro t
    simp [updateCell]
  · intro t
    rfl

lemma abs_fix1_sub (x : ℚ) : |fix1 x - x| ≤ 1 / 20 := by
  have hrepr : fix1 x - x = (((round (x * 10) : ℤ) : ℚ) - x * 10) / 10 := by
    rw [fix1]; ring
  rw [hrepr, abs_div]
  have h10 : |(10 : ℚ)| = 10 := by norm_num
  rw [h10, abs_sub_comm]
  linarith [abs_sub_round (x * 10)]

/-- C4: the tooltip percentage never divides by zero: a dataset total of 0
yields a percentage of 0, and a strictly positive total yields
value/total*100 rounded to one decimal place (hence within 1/20 of the
exact percentage). -/
theorem tooltip_percentage_no_div_zero (value : ℚ) (dataset : List ℚ) :
    (dataset.foldl (fun a b => a + b) 0 = 0 → tooltipPercentage value dataset = 0) ∧
    (0 < dataset.foldl (fun a b => a + b) 0 →
      tooltipPercentage value dataset =
        fix1 (value / dataset.foldl (fun a b => a + b) 0 * 100) ∧
      |tooltipPercentage value dataset -
        value / dataset.foldl (fun a b => a + b) 0 * 100| ≤ 1 / 20) := by
  constructor
  · intro h
    simp [tooltipPercentage, h]
  · intro h
    refine ⟨by simp [tooltipPercentage, h], ?_⟩
    simp only [tooltipPercentage, if_pos h]
    exact abs_fix1_sub _

theorem tooltip_percentage_no_div_zero_witness :
    tooltipPercentage 3 [0, 0, 0] = 0 ∧ tooltipPercentage 1 [1, 1, 2] = 25 := by
  constructor
  · exact (tooltip_percentage_no_div_zero 3 [0, 0, 0]).1 (by norm_num [List.foldl])
  · have h := ((tooltip_percentage_no_div_zero 1 [1, 1, 2]).2
      (by norm_num [List.foldl])).1
    rw [h, fix1, round_eq]
    norm_num [List.foldl]

/-- C1 counterexample: for the riskDistribution with all three values 1
the total is 3 > 0, yet the three rounded tooltip percentages are 33.3
each and sum to 99.9, not 100. -/
theorem tooltip_percentage_sum_counterexample :
    0 < (riskDataset ⟨some 1, some 1, some 1⟩).foldl (fun a b => a + b) 0 ∧
    ((riskDataset ⟨some 1, some 1, some 1⟩).map
      (fun v => tooltipPercentage v (riskDataset ⟨some 1, some 1, some 1⟩))).sum ≠
      100 := by
  norm_num [riskDataset, jsOrQ, tooltipPercentage, fix1, round_eq, List.foldl]

/-- C1 amended: when the total of the three dataset values is strictly
positive, the three exact percentages value/total*100 sum to exactly 100;
the values the callback reports are these percentages rounded to one
decimal, so their sum can differ from 100 by rounding alone; when the
total is 0, every reported percentage is 0. -/
theorem tooltip_exact_percentages_sum (d : RiskDistribution) :
    (0 < (riskDataset d).foldl (fun a b => a + b) 0 →
      ((riskDataset d).map
        (fun v => v / (riskDataset d).foldl (fun a b => a + b) 0 * 100)).sum = 100) ∧
    ((riskDataset d).foldl (fun a b => a + b) 0 = 0 →
      ∀ v, tooltipPercentage v (riskDataset d) = 0) := by
  obtain ⟨a, b, c⟩ := d
  constructor
  · intro h
    simp only [riskDataset, List.foldl, List.map, List.sum_cons, List.sum_nil] at *
    have hT : jsOrQ a 0 + jsOrQ b 0 + jsOrQ c 0 ≠ 0 := by
      have h0 := ne_of_gt h
      simpa using h0
    field_simp [hT]
    ring
  · intro h v
    simp only [tooltipPercentage, h]
    norm_num

theorem tooltip_exact_percentages_sum_witness :
    ((riskDataset ⟨some 1, some 1, some 2⟩).map
      (fun v => v / (riskDataset ⟨some 1, some 1, some 2⟩).foldl
        (fun a b => a + b) 0 * 100)).sum = 100 ∧
    tooltipPercentage 5 (riskDataset ⟨none, none, none⟩) = 0 := by
  constructor
  · exact (tooltip_exact_percentages_sum ⟨some 1, some 1, some 2⟩).1
      (by norm_num [riskDataset, jsOrQ, List.foldl])
  · exact (tooltip_exact_percentages_sum ⟨none, none, none⟩).2
      (by norm_num [riskDataset, jsOrQ, List.foldl]) 5

theorem refresh_success_updates_witness :
    refreshDashboardData ⟨some "5", none, none, none⟩
        (FetchOutcome.success (some ⟨some 9, none, none, none⟩)) =
      Except.ok (updateKPICards ⟨some "5", none, none, none⟩
        ⟨some 9, none, none, none⟩) ∧
    updateCell (some "5") (some 9) = some "9" := by
  constructor
  · exact (refresh_success_updates ⟨some "5", none, none, none⟩
      ⟨some 9, none, none, none⟩).1
  · have h := (refresh_success_updates ⟨some "5", none, none, none⟩
      ⟨some 9, none, none, none⟩).2.1 "5" 9 (by decide)
    simpa using h

lemma jsStartsWith_iff (s sub : List Char) : jsStartsWith s sub = true ↔ sub <+: s := by
  induction s generalizing sub with
  | nil =>
      cases sub with
      | nil => simp [jsStartsWith]
      | cons d sub => simp [jsStartsWith]
  | cons c s ih =>
      cases sub with
      | nil => simp [jsStartsWith]
      | cons d sub =>
          simp only [jsStartsWith, Bool.and_eq_true, decide_eq_true_eq,
            List.cons_prefix_cons, ih]
          exact and_congr_left (fun _ => eq_comm)

lemma jsIncludes_iff (s sub : List Char) : jsIncludes s sub = true ↔ sub <:+: s := by
  induction s with
  | nil => simp [jsIncludes, List.isEmpty_iff, List.infix_nil]
  | cons c s ih =>
      simp [jsIncludes, jsStartsWith_iff, ih, List.infix_cons_iff]

lemma itemDisplay_eq (q it : List Char) :
    itemDisplay q it = (if q <:+: jsToLower it then "" else "none") := by
  rw [itemDisplay]
  by_cases h : q <:+: jsToLower it
  · rw [if_pos ((jsIncludes_iff _ _).mpr h), if_pos h]
  · rw [if_neg (fun hb => h ((jsIncludes_iff _ _).mp hb)), if_neg h]

/-- C7: the search handler lower-cases both the query and each item's text
and filters by substring: an item is left visible (display restored to the
empty string) exactly when the lower-cased query occurs inside the
lower-cased text, and is hidden (display "none") exactly otherwise. -/
theorem search_filter_case_insensitive (query item : List Char)
    (items : List (List Char)) :
    searchFilter query items =
      items.map (fun it => (it, itemDisplay (jsToLower query) it)) ∧
    (itemDisplay (jsToLower query) item = "" ↔
      jsToLower query <:+: jsToLower item) ∧
    (itemDisplay (jsToLower query) item = "none" ↔
      ¬ jsToLower query <:+: jsToLower item) := by
  refine ⟨rfl, ?_, ?_⟩
  · rw [itemDisplay_eq]
    by_cases h : jsToLower query <:+: jsToLower item <;> simp [h]
  · rw [itemDisplay_eq]
    by_cases h : jsToLower query <:+: jsToLower item <;> simp [h]

lemma debounce_pending_future (wait t ft : ℕ) (a pa : α) (rest : List (ℕ × α))
    (h : t < ft) :
    debounceRun wait ((t, a) :: rest) (some (ft, pa)) =
      debounceRun wait ((t, a) :: rest) none := by
  simp [debounceRun, Nat.not_le.mpr h]

lemma debounce_aux (wait : ℕ) (rest : List (ℕ × α)) : ∀ (t : ℕ) (a : α),
    List.Chain (fun p q => p.1 ≤ q.1 ∧ q.1 < p.1 + wait) (t, a) rest →
    debounceRun wait ((t, a) :: rest) none =
      [((rest.getLastD (t, a)).1 + wait, (rest.getLastD (t, a)).2)] := by
  induction rest with
  | nil => intro t a _; rfl
  | cons q rest ih =>
      intro t a hch
      obtain ⟨t2, a2⟩ := q
      rw [List.chain_cons] at hch
      obtain ⟨⟨h1, h2⟩, hch2⟩ := hch
      have step : debounceRun wait ((t, a) :: (t2, a2) :: rest) none =
          debounceRun wait ((t2, a2) :: rest) (some (t + wait, a)) := rfl
      rw [step, debounce_pending_future wait t2 (t + wait) a2 a rest h2,
        ih t2 a2 hch2, List.getLastD_cons]

/-- C6: for a nonempty sequence of calls to the debounced function in
which every consecutive pair is separated by less than the wait delay, the
wrapped function executes exactly once, at the last call's time plus the
wait delay, with the arguments of the last call. -/
theorem debounce_single_execution (wait t : ℕ) (a : α) (rest : List (ℕ × α))
    (hch : List.Chain (fun p q => p.1 ≤ q.1 ∧ q.1 < p.1 + wait) (t, a) rest) :
    debounceRun wait ((t, a) :: rest) none =
      [((rest.getLastD (t, a)).1 + wait, (rest.getLastD (t, a)).2)] :=
  debounce_aux wait rest t a hch

theorem debounce_single_execution_witness :
    debounceRun 3 [((0 : ℕ), (1 : ℕ)), (2, 7)] none = [(5, 7)] := by
  have h := debounce_single_execution 3 0 1 [(2, 7)]
    (List.Chain.cons (by norm_num) List.Chain.nil)
  simpa using h
